import Mathlib

/-!
Shallow embedding of the MelodyForge Telegram music bot (src/bot.py).

The embedding covers the SQLite-backed user store (`Database`), the
Last.fm metadata client response handling (`LastFMClient`), the
`should_show_ad` promotional cadence, the free-text pipeline
(`message_handler`) and the `/similar` recommendation flow
(`similar_command`).  External collaborators — the HTTP provider, the
Telegram transport, yt-dlp and the filesystem — are modelled as explicit
inputs: provider responses are JSON values (with `none` for a transport
error raising inside the client's try block), the acquirer is a function
from query text to an optional file path, file existence is a predicate
on paths, and the success of `reply_audio` is a boolean.  A Python
exception escaping a handler is modelled by the handler returning `none`.
-/

/-- JSON-like values appearing in Last.fm provider responses.  The fields
the bot reads are objects, arrays and strings, so only those three shapes
are modelled. -/
inductive Json where
  | obj : List (String × Json) → Json
  | arr : List Json → Json
  | str : String → Json

/-- First field with the given key in a JSON object's field list. -/
def Json.findField : List (String × Json) → String → Option Json
  | [], _ => none
  | (k, v) :: rest, key => if k = key then some v else Json.findField rest key

/-- Subscript access `data[key]`: `none` models both a missing key and
subscripting a non-object (which raises in Python). -/
def Json.get : Json → String → Option Json
  | Json.obj fields, key => Json.findField fields key
  | _, _ => none

/-- Python `d.get(key, default)`: only dict values support `.get`; on any
other value Python raises AttributeError, modelled as `none`. -/
def Json.dictGet : Json → String → Json → Option Json
  | Json.obj fields, key, dflt => some ((Json.findField fields key).getD dflt)
  | _, _, _ => none

/-- Interpolation of a JSON value into a Python f-string.  String values
interpolate as themselves; for other values Python would interpolate the
value's repr, whose exact text is abstracted by a placeholder. -/
def Json.asString : Json → String
  | Json.str s => s
  | Json.arr _ => "<list>"
  | Json.obj _ => "<dict>"

/-- LastFMClient.search_track (src/bot.py lines 153-172).  The `limit`
argument is only forwarded to the provider inside the request parameters
(`params`); the body never truncates the provider's response.  `resp =
none` models the request or JSON decoding raising: the except branch logs
and the function returns the empty list.  A single-object `track` field is
normalized to a one-element list (`isinstance(tracks, dict)` check). -/
def search_track (limit : Nat) (resp : Option Json) : Json :=
  match resp with
  | none => Json.arr []
  | some data =>
    match Json.get data "results" with
    | none => Json.arr []
    | some res =>
      match Json.get res "trackmatches" with
      | none => Json.arr []
      | some tm =>
        match (Json.get tm "track").getD (Json.arr []) with
        | Json.obj fields => Json.arr [Json.obj fields]
        | tracks => tracks

/-- LastFMClient.get_similar_tracks (src/bot.py lines 174-194).  Same
single-object normalization as `search_track`; missing keys or a raising
request degrade to the empty list. -/
def get_similar_tracks (resp : Option Json) : Json :=
  match resp with
  | none => Json.arr []
  | some data =>
    match Json.get data "similartracks" with
    | none => Json.arr []
    | some st =>
      match Json.get st "track" with
      | none => Json.arr []
      | some tracks =>
        match tracks with
        | Json.obj fields => Json.arr [Json.obj fields]
        | t => t

/-- LastFMClient.get_top_tracks (src/bot.py lines 196-211).  Unlike the
other two client operations, the `track` field is returned exactly as the
provider sent it, with no single-object normalization. -/
def get_top_tracks (resp : Option Json) : Json :=
  match resp with
  | none => Json.arr []
  | some data =>
    match Json.get data "tracks" with
    | none => Json.arr []
    | some ts =>
      match Json.get ts "track" with
      | none => Json.arr []
      | some tracks => tracks

/-- should_show_ad (src/bot.py lines 253-255): an ad is shown every 10
interactions. -/
def should_show_ad (interaction_count : Int) : Bool :=
  decide (interaction_count > 0) && decide (interaction_count % 10 = 0)

/-- A row of the `users` table: user_id (primary key), username, mode
(default `basic`), interaction_count (default 0).  The immutable
`created_at` timestamp is never read by the pipeline and is omitted. -/
structure UserRow where
  user_id : Int
  username : String
  mode : String
  interaction_count : Int
deriving DecidableEq

/-- A row of the `downloads` table (its autoincrement id and
`downloaded_at` timestamp are never read back except for ordering and are
omitted; insertion order is kept by the list). -/
structure DownloadRow where
  user_id : Int
  track_name : String
  artist : String
deriving DecidableEq

/-- The SQLite database: a `users` table and an append-only `downloads`
table. -/
structure DB where
  users : List UserRow
  downloads : List DownloadRow
deriving DecidableEq

/-- Database.get_user: `SELECT * FROM users WHERE user_id = ?` followed by
`fetchone()` — the first matching row, or `none`. -/
def DB.get_user (db : DB) (uid : Int) : Option UserRow :=
  db.users.find? (fun u => u.user_id == uid)

/-- Database.create_user: `INSERT OR IGNORE` with defaults mode `basic`
and interaction_count 0. -/
def DB.create_user (db : DB) (uid : Int) (username : String) : DB :=
  match db.get_user uid with
  | some _ => db
  | none =>
    { db with users := db.users ++
        [{ user_id := uid, username := username, mode := "basic", interaction_count := 0 }] }

/-- Database.increment_interaction (src/bot.py lines 105-116):
`UPDATE users SET interaction_count = interaction_count + 1 WHERE user_id = ?`
followed by `SELECT interaction_count ...; fetchone()[0]`.  When no row
has the given id the UPDATE is a no-op and `fetchone()` yields `None`, so
the subscript raises — modelled by `none`.  Otherwise the post-increment
count and the updated table are returned. -/
def DB.increment_interaction (db : DB) (uid : Int) : Option (Int × DB) :=
  let updated : DB :=
    { db with users := db.users.map (fun u =>
        if u.user_id == uid then { u with interaction_count := u.interaction_count + 1 } else u) }
  match updated.get_user uid with
  | some u => some (u.interaction_count, updated)
  | none => none

/-- Database.add_download: append a row to the `downloads` table. -/
def DB.add_download (db : DB) (uid : Int) (track_name : String) (artist : String) : DB :=
  { db with downloads := db.downloads ++
      [{ user_id := uid, track_name := track_name, artist := artist }] }

/-- Interaction count of the given user, if the row exists. -/
def DB.countOf (db : DB) (uid : Int) : Option Int :=
  (db.get_user uid).map (fun u => u.interaction_count)

/-- The fixed pool of promotional messages (AD_MESSAGES). -/
def AD_MESSAGES : List String :=
  ["Реклама: Попробуй наш партнёрский бот @CoolMusicBot!",
   "Реклама: Открой новую музыку с @DiscoverMusicBot!",
   "Реклама: Слушай подкасты на @PodcastHubBot!"]

/-- Outbound transport messages: plain text, or an audio attachment with
file path, title and performer. -/
inductive Out where
  | text : String → Out
  | audio : String → String → String → Out
deriving DecidableEq

def searching_msg : String := "🔍 Ищу музыку..."

def downloading_msg : String := "⬇️ Скачиваю..."

def not_found_msg : String := "❌ Не удалось скачать трек. Попробуй уточнить запрос."

def send_error_msg : String := "❌ Ошибка при отправке файла. Попробуй другой запрос."

def search_results_header : String := "🎵 *Результаты поиска:*\n\n"

def search_results_footer : String := "\nСкачиваю первый результат..."

def similar_usage_msg : String :=
  "💡 Используй: `/similar Исполнитель - Название`\n\nНапример: `/similar Radiohead - Creep`"

def similar_format_msg : String :=
  "❌ Неверный формат. Используй: `/similar Исполнитель - Название`"

def similar_wait_msg : String := "⏳ Ищу похожие треки..."

def similar_not_found_msg : String :=
  "❌ Не удалось найти похожие треки. Проверь правильность названия."

/-- Environment of one `message_handler` invocation: the collaborator
behaviours visible to the handler.  `searchResp` is the Last.fm response
for the search call; `download` is `download_audio` as a function of the
query; `fileExists` is `os.path.exists`; `sendAudioOk` says whether
`reply_audio` succeeds or raises; `adIndex` resolves `random.choice` on
the ad pool. -/
structure Env where
  searchResp : Option Json
  download : String → Option String
  fileExists : String → Bool
  sendAudioOk : Bool
  adIndex : Nat

/-- Environment of one `similar_command` invocation. -/
structure SimilarEnv where
  similarResp : Option Json
  adIndex : Nat

/-- Result of a handler invocation: the outbound messages in order, the
database afterwards, and the paths removed from transient storage. -/
structure HandlerResult where
  outs : List Out
  db : DB
  removed : List String
deriving DecidableEq

/-- Python `s.split(sep, 1)` on the character list of `s`: split at the
first occurrence of `sep`, or `none` when `sep` does not occur. -/
def splitFirst (sep : Char) : List Char → Option (List Char × List Char)
  | [] => none
  | c :: cs =>
    if c == sep then some ([], cs)
    else
      match splitFirst sep cs with
      | none => none
      | some (l, r) => some (c :: l, r)

/-- Whether a character occurs in a list (Python `sep in s`). -/
def hasChar : List Char → Char → Bool
  | [], _ => false
  | c :: cs, d => c == d || hasChar cs d

/-- The artist/title split applied to the download query before the
DownloadRecord is persisted (src/bot.py lines 481-483):
`parts = download_query.split(' ', 1)`, artist = `parts[0]`
(`split` always yields at least one part, so the "Unknown" default in the
source is unreachable), title = `parts[1]` when a space was found and the
whole query otherwise.  Returns (artist, title). -/
def parse_artist_track (q : String) : String × String :=
  match splitFirst ' ' q.data with
  | some (a, t) => (String.mk a, String.mk t)
  | none => (q, q)

/-- One line of the advanced-mode search report:
`f"{i}. {artist} - {name}"` with `track.get('artist', 'Unknown')` and
`track.get('name', 'Unknown')`; `none` when the element is not a dict
(AttributeError escaping the handler). -/
def search_line (i : Nat) (t : Json) : Option String :=
  match Json.dictGet t "artist" (Json.str "Unknown") with
  | none => none
  | some a =>
    match Json.dictGet t "name" (Json.str "Unknown") with
    | none => none
    | some n => some (toString i ++ ". " ++ Json.asString a ++ " - " ++ Json.asString n ++ "\n")

/-- The enumerated search-report lines, numbering from `i`. -/
def search_lines : Nat → List Json → Option String
  | _, [] => some ""
  | i, t :: ts =>
    match search_line i t with
    | none => none
    | some line =>
      match search_lines (i + 1) ts with
      | none => none
      | some rest => some (line ++ rest)

/-- The advanced-mode SearchPhase of message_handler (src/bot.py lines
443-464): in advanced mode call `search_track`; on a truthy result list,
report the results and derive the download query from the first result's
artist and name; on a falsy result (empty list, or an empty string from a
degenerate provider value), fall back to the raw inbound text.  A truthy
non-list value would crash the iteration or the `.get` calls in Python,
modelled as `none`.  In any other mode the raw text is the download
query. -/
def search_phase (mode : String) (searchResp : Option Json) (query : String) :
    Option (List Out × String) :=
  if mode == "advanced" then
    match search_track 5 searchResp with
    | Json.arr [] => some ([], query)
    | Json.arr (t :: ts) =>
      match search_lines 1 (t :: ts) with
      | none => none
      | some body =>
        match Json.dictGet t "artist" (Json.str "Unknown"),
              Json.dictGet t "name" (Json.str "Unknown") with
        | some a, some n =>
          some ([Out.text (search_results_header ++ body ++ search_results_footer)],
                Json.asString a ++ " " ++ Json.asString n)
        | some _, none => none
        | none, _ => none
    | Json.str s => if s == "" then some ([], query) else none
    | Json.obj [] => some ([], query)
    | Json.obj (_ :: _) => none
  else some ([], query)

/-- The AcquirePhase/DeliverPhase of message_handler (src/bot.py lines
469-496).  `download_audio` is consulted on the resolved query; delivery
happens only when it returned a truthy path at which a file exists.  On
send success the audio goes out, the DownloadRecord is persisted from the
space-split of the download query, and the artifact is removed; when
`reply_audio` raises, the except branch reports a delivery error and
neither the record insert nor the `os.remove` cleanup runs.  Otherwise
the not-found branch reports the failure.  Returns (messages, database,
removed paths). -/
def deliver_phase (env : Env) (db : DB) (uid : Int) (download_query : String) :
    List Out × DB × List String :=
  match env.download download_query with
  | none => ([Out.text not_found_msg], db, [])
  | some p =>
    if (p != "") && env.fileExists p then
      if env.sendAudioOk then
        ([Out.audio p download_query "MelodyForge"],
         DB.add_download db uid (parse_artist_track download_query).2
           (parse_artist_track download_query).1,
         [p])
      else ([Out.text send_error_msg], db, [])
    else ([Out.text not_found_msg], db, [])

/-- message_handler (src/bot.py lines 426-501): look up the user, create
it on first contact, read the mode, increment the interaction counter
(its post-increment value drives the promotional check), run the
mode-dependent SearchPhase, then Acquire/Deliver, and finally append one
ad message when `should_show_ad` holds for the post-increment count.
`none` models a Python exception escaping the handler. -/
def message_handler (env : Env) (db0 : DB) (uid : Int) (username : String) (query : String) :
    Option HandlerResult :=
  let db1 := if (db0.get_user uid).isNone then db0.create_user uid username else db0
  let mode := match db1.get_user uid with
    | some u => u.mode
    | none => "basic"
  match db1.increment_interaction uid with
  | none => none
  | some (count, db2) =>
    match search_phase mode env.searchResp query with
    | none => none
    | some (searchOuts, download_query) =>
      match deliver_phase env db2 uid download_query with
      | (deliverOuts, db3, removed) =>
        some { outs := [Out.text searching_msg] ++ searchOuts ++ [Out.text downloading_msg]
                  ++ deliverOuts
                  ++ (if should_show_ad count then
                        [Out.text (AD_MESSAGES.getD (env.adIndex % 3) "")] else []),
               db := db3,
               removed := removed }

/-- One line of the `/similar` report: `similar.get('artist', {})` must be
a dict (else AttributeError), then `.get('name', 'Unknown')` on it, and
`similar.get('name', 'Unknown')`. -/
def similar_line (i : Nat) (t : Json) : Option String :=
  match Json.dictGet t "artist" (Json.obj []) with
  | none => none
  | some a =>
    match Json.dictGet a "name" (Json.str "Unknown") with
    | none => none
    | some nm =>
      match Json.dictGet t "name" (Json.str "Unknown") with
      | none => none
      | some n => some (toString i ++ ". " ++ Json.asString nm ++ " - " ++ Json.asString n ++ "\n")

/-- The enumerated `/similar` report lines, numbering from `i`. -/
def similar_render : Nat → List Json → Option String
  | _, [] => some ""
  | i, t :: ts =>
    match similar_line i t with
    | none => none
    | some line =>
      match similar_render (i + 1) ts with
      | none => none
      | some rest => some (line ++ rest)

/-- The results block of the /similar flow (src/bot.py lines 406-417):
the not-found reply on a falsy result, the rendered recommendation list
on a truthy list, and `none` — an exception escaping before the counter
increment — on a truthy non-list value. -/
def similar_results_outs (artist track : String) (tracksJson : Json) : Option (List Out) :=
  match tracksJson with
  | Json.arr [] => some [Out.text similar_not_found_msg]
  | Json.arr (x :: xs) =>
    match similar_render 1 (x :: xs) with
    | none => none
    | some body =>
      some [Out.text ("💡 *Похожие на " ++ artist ++ " - " ++ track ++ ":*\n\n" ++ body
              ++ "\nОтправь название, чтобы скачать!")]
  | Json.str s => if s == "" then some [Out.text similar_not_found_msg] else none
  | Json.obj [] => some [Out.text similar_not_found_msg]
  | Json.obj (_ :: _) => none

/-- similar_command (src/bot.py lines 377-423): empty arguments get the
usage reply and return before any side effect; arguments whose join
contains no dash get the format-error reply and also return before any
side effect.  On well-formed input the artist/track are the trimmed
halves around the first dash, `get_similar_tracks` is consulted, the
results (or a not-found message) are reported, and only then is the
interaction counter incremented — without any create_user guard — and
the promotional check run on the post-increment count. -/
def similar_command (sEnv : SimilarEnv) (db0 : DB) (uid : Int) (args : List String) :
    Option HandlerResult :=
  if args.isEmpty then
    some { outs := [Out.text similar_usage_msg], db := db0, removed := [] }
  else
    let query := String.intercalate " " args
    match splitFirst '-' query.data with
    | none => some { outs := [Out.text similar_format_msg], db := db0, removed := [] }
    | some (a, t) =>
      let artist := (String.mk a).trim
      let track := (String.mk t).trim
      match similar_results_outs artist track (get_similar_tracks sEnv.similarResp) with
      | none => none
      | some ro =>
        match db0.increment_interaction uid with
        | none => none
        | some (count, db1) =>
          some { outs := [Out.text similar_wait_msg] ++ ro
                    ++ (if should_show_ad count then
                          [Out.text (AD_MESSAGES.getD (sEnv.adIndex % 3) "")] else []),
                 db := db1, removed := [] }

/-- Post-increment interaction count of the user after one pipeline
invocation starting from `db`: one more than the stored count, or 1 when
the row is created on first contact. -/
def postCount (db : DB) (uid : Int) : Int :=
  match db.get_user uid with
  | some u => u.interaction_count + 1
  | none => 1

/-! Concrete provider responses used by witnesses and counterexamples. -/

/-- A track.search response whose track field is a single object. -/
def searchSingleResp : Json :=
  Json.obj [("results", Json.obj [("trackmatches", Json.obj [("track",
    Json.obj [("name", Json.str "Believer"), ("artist", Json.str "Imagine Dragons")])])])]

/-- A track.getSimilar response whose track field is a single object. -/
def similarSingleResp : Json :=
  Json.obj [("similartracks", Json.obj [("track",
    Json.obj [("name", Json.str "Believer"),
              ("artist", Json.obj [("name", Json.str "Imagine Dragons")])])])]

/-- A chart.getTopTracks response whose track field is a single object. -/
def topTracksSingleResp : Json :=
  Json.obj [("tracks", Json.obj [("track", Json.obj [("name", Json.str "Believer")])])]

/-- A track.search response carrying two results. -/
def searchTwoTracksResp : Json :=
  Json.obj [("results", Json.obj [("trackmatches", Json.obj [("track",
    Json.arr [Json.obj [("name", Json.str "A"), ("artist", Json.str "X")],
              Json.obj [("name", Json.str "B"), ("artist", Json.str "Y")]])])])]

/-- First track of the scenario-C search response. -/
def beatlesTrack1 : Json :=
  Json.obj [("name", Json.str "Yesterday"), ("artist", Json.str "The Beatles")]

/-- Second track of the scenario-C search response. -/
def beatlesTrack2 : Json :=
  Json.obj [("name", Json.str "Let It Be"), ("artist", Json.str "The Beatles")]

/-- The scenario-C search response: two ranked results. -/
def searchBeatlesResp : Json :=
  Json.obj [("results", Json.obj [("trackmatches", Json.obj [("track",
    Json.arr [beatlesTrack1, beatlesTrack2])])])]

/-- A delivery environment where acquisition and sending both succeed. -/
def envDeliver : Env :=
  { searchResp := none, download := fun _ => some "/tmp/a.mp3", fileExists := fun _ => true,
    sendAudioOk := true, adIndex := 0 }

/-- A store holding one user with interaction_count 4. -/
def dbFour : DB :=
  { users := [{ user_id := 1, username := "u", mode := "basic", interaction_count := 4 }],
    downloads := [] }

/-- A pipeline environment where the acquirer reports a path but no file
exists anywhere on disk. -/
def envNoFile : Env :=
  { searchResp := none, download := fun _ => some "/tmp/ghost.mp3",
    fileExists := fun _ => false, sendAudioOk := true, adIndex := 0 }

/-- The scenario-E environment: acquirer returns absent for every query. -/
def envA : Env :=
  { searchResp := none, download := fun _ => none, fileExists := fun _ => false,
    sendAudioOk := true, adIndex := 0 }

/-- An initially empty store. -/
def dbA : DB := { users := [], downloads := [] }

/-- Result of running `message_handler envA dbA 1 "u" "hello world"`. -/
def rA : HandlerResult :=
  { outs := [Out.text searching_msg, Out.text downloading_msg, Out.text not_found_msg],
    db := { users := [{ user_id := 1, username := "u", mode := "basic",
                        interaction_count := 1 }], downloads := [] },
    removed := [] }

/-- A /similar environment whose provider errors out. -/
def sEnvSim : SimilarEnv := { similarResp := none, adIndex := 0 }

/-- Result of running `/similar Coldplay - Fix You` from the stored user. -/
def rSim : HandlerResult :=
  { outs := [Out.text similar_wait_msg, Out.text similar_not_found_msg],
    db := { users := [{ user_id := 1, username := "u", mode := "basic",
                        interaction_count := 5 }], downloads := [] },
    removed := [] }

/-- A delivery environment where the artifact exists but reply_audio
throws. -/
def envSendFail : Env :=
  { searchResp := none, download := fun _ => some "/tmp/song.mp3",
    fileExists := fun _ => true, sendAudioOk := false, adIndex := 0 }

/-! Helper lemmas about the store and the string utilities. -/

lemma find?_append_of_none {α : Type} (p : α → Bool) (l1 l2 : List α)
    (h : List.find? p l1 = none) : List.find? p (l1 ++ l2) = List.find? p l2 := by
  rw [List.find?_append, h]
  rfl

lemma get_user_create_of_none (db : DB) (uid : Int) (name : String)
    (h : db.get_user uid = none) :
    (db.create_user uid name).get_user uid =
      some { user_id := uid, username := name, mode := "basic", interaction_count := 0 } := by
  unfold DB.create_user
  rw [h]
  show List.find? _ (db.users ++ _) = _
  rw [find?_append_of_none _ _ _ h]
  simp [List.find?]

lemma create_user_downloads (db : DB) (uid : Int) (name : String) :
    (db.create_user uid name).downloads = db.downloads := by
  unfold DB.create_user
  cases db.get_user uid <;> rfl

lemma find?_bump (users : List UserRow) (uid : Int) :
    List.find? (fun u => u.user_id == uid)
        (users.map (fun u =>
          if u.user_id == uid then { u with interaction_count := u.interaction_count + 1 } else u))
      = (List.find? (fun u => u.user_id == uid) users).map
          (fun u => { u with interaction_count := u.interaction_count + 1 }) := by
  induction users with
  | nil => rfl
  | cons u us ih =>
    by_cases h : (u.user_id == uid) = true
    · have hb : ((fun x : UserRow => x.user_id == uid)
          { u with interaction_count := u.interaction_count + 1 }) = true := h
      simp only [List.map_cons, if_pos h]
      rw [List.find?_cons_of_pos (p := fun x : UserRow => x.user_id == uid)
            (a := { u with interaction_count := u.interaction_count + 1 }) _ hb,
          List.find?_cons_of_pos (p := fun x : UserRow => x.user_id == uid) (a := u) _ h]
      rfl
    · simp only [List.map_cons, if_neg h]
      rw [List.find?_cons_of_neg (p := fun x : UserRow => x.user_id == uid) (a := u) _ h,
          List.find?_cons_of_neg (p := fun x : UserRow => x.user_id == uid) (a := u) _ h]
      exact ih

lemma increment_spec (db : DB) (uid : Int) (u : UserRow) (h : db.get_user uid = some u) :
    ∃ db' : DB,
      db.increment_interaction uid = some (u.interaction_count + 1, db') ∧
      db'.get_user uid = some { u with interaction_count := u.interaction_count + 1 } ∧
      db'.downloads = db.downloads := by
  have hf : (DB.mk (db.users.map (fun v =>
      if v.user_id == uid then { v with interaction_count := v.interaction_count + 1 } else v))
      db.downloads).get_user uid =
      some { u with interaction_count := u.interaction_count + 1 } := by
    show List.find? _ _ = _
    rw [find?_bump]
    have h' : List.find? (fun v : UserRow => v.user_id == uid) db.users = some u := h
    rw [h']
    rfl
  refine ⟨_, ?_, hf, rfl⟩
  unfold DB.increment_interaction
  dsimp only
  rw [hf]

lemma increment_none (db : DB) (uid : Int) (h : db.get_user uid = none) :
    db.increment_interaction uid = none := by
  have hf : (DB.mk (db.users.map (fun v =>
      if v.user_id == uid then { v with interaction_count := v.interaction_count + 1 } else v))
      db.downloads).get_user uid = none := by
    show List.find? _ _ = _
    rw [find?_bump]
    have h' : List.find? (fun v : UserRow => v.user_id == uid) db.users = none := h
    rw [h']
    rfl
  unfold DB.increment_interaction
  dsimp only
  rw [hf]

lemma get_user_eq_of_users_eq (db db' : DB) (uid : Int) (h : db.users = db'.users) :
    db.get_user uid = db'.get_user uid := by
  unfold DB.get_user
  rw [h]

lemma add_download_users (db : DB) (uid : Int) (t a : String) :
    (DB.add_download db uid t a).users = db.users := rfl

lemma deliver_phase_users (env : Env) (db : DB) (uid : Int) (dq : String) :
    ((deliver_phase env db uid dq).2.1).users = db.users := by
  unfold deliver_phase
  cases hd : env.download dq with
  | none => rfl
  | some p =>
    dsimp only
    by_cases h1 : ((p != "") && env.fileExists p) = true
    · rw [if_pos h1]
      cases h2 : env.sendAudioOk <;> rfl
    · rw [if_neg h1]

lemma deliver_phase_absent (env : Env) (db : DB) (uid : Int) (dq : String)
    (h : env.download dq = none) :
    deliver_phase env db uid dq = ([Out.text not_found_msg], db, []) := by
  unfold deliver_phase
  rw [h]

lemma deliver_phase_no_file (env : Env) (db : DB) (uid : Int) (dq p : String)
    (hp : env.download dq = some p) (hf : env.fileExists p = false) :
    deliver_phase env db uid dq = ([Out.text not_found_msg], db, []) := by
  unfold deliver_phase
  rw [hp]
  dsimp only
  rw [if_neg (by simp [hf])]

lemma deliver_phase_success (env : Env) (db : DB) (uid : Int) (dq p : String)
    (h1 : env.download dq = some p) (h2 : ((p != "") && env.fileExists p) = true)
    (h3 : env.sendAudioOk = true) :
    deliver_phase env db uid dq =
      ([Out.audio p dq "MelodyForge"],
       DB.add_download db uid (parse_artist_track dq).2 (parse_artist_track dq).1,
       [p]) := by
  unfold deliver_phase
  rw [h1]
  dsimp only
  rw [if_pos h2, if_pos h3]

lemma deliver_phase_removed_send_fail (env : Env) (db : DB) (uid : Int) (dq : String)
    (h : env.sendAudioOk = false) :
    (deliver_phase env db uid dq).2.2 = [] := by
  unfold deliver_phase
  cases hd : env.download dq with
  | none => rfl
  | some p =>
    dsimp only
    by_cases h1 : ((p != "") && env.fileExists p) = true
    · rw [if_pos h1, h]
      rfl
    · rw [if_neg h1]

lemma splitFirst_none_of_not_hasChar (sep : Char) (l : List Char)
    (h : hasChar l sep = false) : splitFirst sep l = none := by
  induction l with
  | nil => rfl
  | cons c cs ih =>
    unfold hasChar at h
    rw [Bool.or_eq_false_iff] at h
    unfold splitFirst
    rw [if_neg (by simp [h.1]), ih h.2]

lemma splitFirst_isSome_of_hasChar (sep : Char) (l : List Char)
    (h : hasChar l sep = true) : ∃ a b, splitFirst sep l = some (a, b) := by
  induction l with
  | nil => exact absurd h (by simp [hasChar])
  | cons c cs ih =>
    unfold hasChar at h
    by_cases hc : (c == sep) = true
    · exact ⟨[], cs, by unfold splitFirst; rw [if_pos hc]⟩
    · rw [Bool.or_eq_true_iff] at h
      obtain ⟨a, b, hab⟩ := ih (h.resolve_left (by simpa using hc))
      exact ⟨c :: a, b, by unfold splitFirst; rw [if_neg hc, hab]⟩

/-- The user row `message_handler` sees after its create-if-absent step,
together with the facts the claims need about it. -/
lemma setup_spec (db0 : DB) (uid : Int) (uname : String) :
    ∃ u : UserRow,
      (if (db0.get_user uid).isNone then db0.create_user uid uname else db0).get_user uid
        = some u ∧
      u.interaction_count + 1 = postCount db0 uid ∧
      (if (db0.get_user uid).isNone then db0.create_user uid uname else db0).downloads
        = db0.downloads := by
  cases h : db0.get_user uid with
  | some u =>
    refine ⟨u, ?_, ?_, ?_⟩
    · rw [if_neg (by simp [h])]
      exact h
    · unfold postCount
      rw [h]
    · rw [if_neg (by simp [h])]
  | none =>
    refine ⟨{ user_id := uid, username := uname, mode := "basic", interaction_count := 0 }, ?_, ?_, ?_⟩
    · rw [if_pos (by simp [h])]
      exact get_user_create_of_none db0 uid uname h
    · unfold postCount
      rw [h]
      rfl
    · rw [if_pos (by simp [h])]
      exact create_user_downloads db0 uid uname

/-! Claim theorems. -/

/-- Claim C1: for every integer interaction count c, `should_show_ad c`
returns true if and only if c > 0 and c mod 10 = 0. -/
theorem should_show_ad_iff :
    ∀ c : Int, should_show_ad c = true ↔ (c > 0 ∧ c % 10 = 0) := by
  intro c
  unfold should_show_ad
  simp

/-- Claim C4 counterexample: the claim quantifies over all three Metadata
Client operations, but `get_top_tracks` does not normalize a
single-object track field — on this response it returns the bare object,
not a one-element sequence. -/
theorem get_top_tracks_not_normalized :
    get_top_tracks (some topTracksSingleResp) = Json.obj [("name", Json.str "Believer")] ∧
    Json.obj [("name", Json.str "Believer")]
      ≠ Json.arr [Json.obj [("name", Json.str "Believer")]] :=
  ⟨rfl, fun h => Json.noConfusion h⟩

/-- Claim C4 (amended): `search_track` and `get_similar_tracks` normalize
a single-object track field to a one-element sequence before returning;
`get_top_tracks` performs no such normalization and returns the field
exactly as the provider sent it. -/
theorem client_single_object_normalization :
    (∀ (lim : Nat) (data res tm : Json) (fields : List (String × Json)),
       Json.get data "results" = some res →
       Json.get res "trackmatches" = some tm →
       Json.get tm "track" = some (Json.obj fields) →
       search_track lim (some data) = Json.arr [Json.obj fields]) ∧
    (∀ (data st : Json) (fields : List (String × Json)),
       Json.get data "similartracks" = some st →
       Json.get st "track" = some (Json.obj fields) →
       get_similar_tracks (some data) = Json.arr [Json.obj fields]) ∧
    (∀ (data ts : Json) (fields : List (String × Json)),
       Json.get data "tracks" = some ts →
       Json.get ts "track" = some (Json.obj fields) →
       get_top_tracks (some data) = Json.obj fields) := by
  refine ⟨?_, ?_, ?_⟩
  · intro lim data res tm fields h1 h2 h3
    unfold search_track
    dsimp only
    rw [h1]
    dsimp only
    rw [h2]
    dsimp only
    rw [h3]
    rfl
  · intro data st fields h1 h2
    unfold get_similar_tracks
    dsimp only
    rw [h1]
    dsimp only
    rw [h2]
  · intro data ts fields h1 h2
    unfold get_top_tracks
    dsimp only
    rw [h1]
    dsimp only
    rw [h2]

/-- Claim C4 witness: the amended normalization facts evaluated on
concrete single-object responses. -/
theorem client_single_object_normalization_witness :
    search_track 5 (some searchSingleResp)
      = Json.arr [Json.obj [("name", Json.str "Believer"),
                            ("artist", Json.str "Imagine Dragons")]] ∧
    get_similar_tracks (some similarSingleResp)
      = Json.arr [Json.obj [("name", Json.str "Believer"),
                            ("artist", Json.obj [("name", Json.str "Imagine Dragons")])]] ∧
    get_top_tracks (some topTracksSingleResp) = Json.obj [("name", Json.str "Believer")] :=
  ⟨client_single_object_normalization.1 5 searchSingleResp _ _ _ rfl rfl rfl,
   client_single_object_normalization.2.1 similarSingleResp _ _ rfl rfl,
   client_single_object_normalization.2.2 topTracksSingleResp _ _ rfl rfl⟩

/-- Claim C8 counterexample: with limit 1 and a provider response holding
two tracks, `search_track` returns both — the client never truncates to
the limit. -/
theorem search_track_ignores_limit :
    search_track 1 (some searchTwoTracksResp) =
      Json.arr [Json.obj [("name", Json.str "A"), ("artist", Json.str "X")],
                Json.obj [("name", Json.str "B"), ("artist", Json.str "Y")]] ∧
    ¬ ([Json.obj [("name", Json.str "A"), ("artist", Json.str "X")],
        Json.obj [("name", Json.str "B"), ("artist", Json.str "Y")]].length ≤ 1) :=
  ⟨rfl, by decide⟩

/-- Claim C8 (amended): `search_track` forwards the limit to the provider
only as a request parameter and returns the provider's track list exactly
as sent — provider relevance order preserved, but no client-side
truncation, so the length bound holds only when the provider itself
honors the limit. -/
theorem search_track_returns_provider_list :
    ∀ (lim : Nat) (data res tm : Json) (l : List Json),
      Json.get data "results" = some res →
      Json.get res "trackmatches" = some tm →
      Json.get tm "track" = some (Json.arr l) →
      search_track lim (some data) = Json.arr l := by
  intro lim data res tm l h1 h2 h3
  unfold search_track
  dsimp only
  rw [h1]
  dsimp only
  rw [h2]
  dsimp only
  rw [h3]
  rfl

/-- Claim C8 witness: the amended no-truncation fact evaluated on the
two-track response with limit 1. -/
theorem search_track_returns_provider_list_witness :
    search_track 1 (some searchTwoTracksResp) =
      Json.arr [Json.obj [("name", Json.str "A"), ("artist", Json.str "X")],
                Json.obj [("name", Json.str "B"), ("artist", Json.str "Y")]] :=
  search_track_returns_provider_list 1 searchTwoTracksResp _ _ _ rfl rfl rfl

/-- Claim C5: in advanced mode, a non-empty search result makes the
download query the top result's artist followed by its title (and the
results are reported to the user); an empty search result falls back to
the raw inbound text as the download query. -/
theorem advanced_download_query :
    (∀ (resp : Option Json) (q : String) (t : Json) (ts : List Json) (body : String)
       (a n : Json),
       search_track 5 resp = Json.arr (t :: ts) →
       search_lines 1 (t :: ts) = some body →
       Json.dictGet t "artist" (Json.str "Unknown") = some a →
       Json.dictGet t "name" (Json.str "Unknown") = some n →
       search_phase "advanced" resp q =
         some ([Out.text (search_results_header ++ body ++ search_results_footer)],
               Json.asString a ++ " " ++ Json.asString n)) ∧
    (∀ (resp : Option Json) (q : String),
       search_track 5 resp = Json.arr [] →
       search_phase "advanced" resp q = some ([], q)) := by
  constructor
  · intro resp q t ts body a n h1 h2 h3 h4
    unfold search_phase
    rw [if_pos (show (("advanced" == "advanced") = true) from rfl)]
    rw [h1]
    dsimp only
    rw [h2]
    dsimp only
    rw [h3, h4]
  · intro resp q h1
    unfold search_phase
    rw [if_pos (show (("advanced" == "advanced") = true) from rfl), h1]

/-- Claim C5 witness: scenario C — the Beatles response turns raw input
"Yesterday" into download query "The Beatles Yesterday"; an erroring
provider (empty result) keeps the raw input. -/
theorem advanced_download_query_witness :
    search_phase "advanced" (some searchBeatlesResp) "Yesterday" =
      some ([Out.text (search_results_header
              ++ "1. The Beatles - Yesterday\n2. The Beatles - Let It Be\n"
              ++ search_results_footer)],
            "The Beatles Yesterday") ∧
    search_phase "advanced" none "Yesterday" = some ([], "Yesterday") :=
  ⟨advanced_download_query.1 (some searchBeatlesResp) "Yesterday" beatlesTrack1 [beatlesTrack2]
     "1. The Beatles - Yesterday\n2. The Beatles - Let It Be\n"
     (Json.str "The Beatles") (Json.str "Yesterday") rfl rfl rfl rfl,
   advanced_download_query.2 none "Yesterday" rfl⟩

/-- Claim C6: a /similar invocation whose joined argument text contains
no dash — including empty arguments — is answered with the usage or
format error alone: the database (hence interaction_count) is unchanged
and no promotional message appears. -/
theorem similar_no_dash_no_side_effect :
    ∀ (sEnv : SimilarEnv) (db0 : DB) (uid : Int) (args : List String),
      hasChar (String.intercalate " " args).data '-' = false →
      ∃ msg, similar_command sEnv db0 uid args =
          some { outs := [Out.text msg], db := db0, removed := [] } ∧
        (msg = similar_usage_msg ∨ msg = similar_format_msg) ∧
        AD_MESSAGES.contains msg = false := by
  intro sEnv db0 uid args h
  cases args with
  | nil => exact ⟨similar_usage_msg, rfl, Or.inl rfl, by decide⟩
  | cons a as =>
    refine ⟨similar_format_msg, ?_, Or.inr rfl, by decide⟩
    unfold similar_command
    rw [if_neg (by simp)]
    dsimp only
    rw [splitFirst_none_of_not_hasChar _ _ h]

/-- Claim C6 witness: /similar with the single argument "Coldplay" (no
dash) at a concrete environment and store. -/
theorem similar_no_dash_no_side_effect_witness :
    ∃ msg, similar_command { similarResp := none, adIndex := 0 }
        { users := [], downloads := [] } 7 ["Coldplay"] =
        some { outs := [Out.text msg], db := { users := [], downloads := [] }, removed := [] } ∧
      (msg = similar_usage_msg ∨ msg = similar_format_msg) ∧
      AD_MESSAGES.contains msg = false :=
  similar_no_dash_no_side_effect _ _ 7 ["Coldplay"] (by decide)

/-- Claim C7: in basic mode the Acquirer is consulted with the user's
exact text (the SearchPhase passes the raw query through), and on
successful delivery the persisted DownloadRecord is derived from the
download query by the first-space split: first token = artist, remainder
= title, the title defaulting to the whole query when no space occurs
(so "Imagine Dragons Believer" persists artist "Imagine", title
"Dragons Believer"). -/
theorem download_record_split_rule :
    (∀ (resp : Option Json) (q : String), search_phase "basic" resp q = some ([], q)) ∧
    (∀ (env : Env) (db : DB) (uid : Int) (dq p : String),
       env.download dq = some p →
       ((p != "") && env.fileExists p) = true →
       env.sendAudioOk = true →
       deliver_phase env db uid dq =
         ([Out.audio p dq "MelodyForge"],
          DB.add_download db uid (parse_artist_track dq).2 (parse_artist_track dq).1,
          [p])) ∧
    parse_artist_track "Imagine Dragons Believer" = ("Imagine", "Dragons Believer") ∧
    (∀ q : String, hasChar q.data ' ' = false → parse_artist_track q = (q, q)) := by
  refine ⟨?_, ?_, by decide, ?_⟩
  · intro resp q
    unfold search_phase
    rw [if_neg (show ¬ (("basic" == "advanced") = true) from by decide)]
  · intro env db uid dq p h1 h2 h3
    exact deliver_phase_success env db uid dq p h1 h2 h3
  · intro q h
    unfold parse_artist_track
    rw [splitFirst_none_of_not_hasChar _ _ h]

/-- Claim C7 witness: scenario B evaluated concretely — basic mode passes
"Imagine Dragons Believer" through unchanged and the persisted record is
artist "Imagine", title "Dragons Believer". -/
theorem download_record_split_rule_witness :
    search_phase "basic" none "Imagine Dragons Believer"
      = some ([], "Imagine Dragons Believer") ∧
    deliver_phase envDeliver { users := [], downloads := [] } 1 "Imagine Dragons Believer" =
      ([Out.audio "/tmp/a.mp3" "Imagine Dragons Believer" "MelodyForge"],
       DB.add_download { users := [], downloads := [] } 1 "Dragons Believer" "Imagine",
       ["/tmp/a.mp3"]) ∧
    parse_artist_track "Believer" = ("Believer", "Believer") :=
  ⟨download_record_split_rule.1 none "Imagine Dragons Believer",
   download_record_split_rule.2.1 envDeliver { users := [], downloads := [] } 1
     "Imagine Dragons Believer" "/tmp/a.mp3" rfl rfl rfl,
   download_record_split_rule.2.2.2 "Believer" (by decide)⟩

/-- Claim C9: increment_interaction returns the post-increment count when
the user row exists, and fails (the SELECT after the UPDATE finds no row,
so the subscript raises) when it does not; the /similar flow invokes it
without first ensuring the row exists, so a well-formed /similar from an
unknown user id crashes instead of completing. -/
theorem increment_requires_existing_user :
    (∀ (db : DB) (uid : Int) (u : UserRow), db.get_user uid = some u →
       ∃ db', db.increment_interaction uid = some (u.interaction_count + 1, db')) ∧
    (∀ (db : DB) (uid : Int), db.get_user uid = none →
       db.increment_interaction uid = none) ∧
    (∀ (sEnv : SimilarEnv) (db : DB) (uid : Int) (args : List String),
       db.get_user uid = none → args ≠ [] →
       hasChar (String.intercalate " " args).data '-' = true →
       similar_command sEnv db uid args = none) := by
  refine ⟨?_, increment_none, ?_⟩
  · intro db uid u h
    obtain ⟨db', h1, _, _⟩ := increment_spec db uid u h
    exact ⟨db', h1⟩
  · intro sEnv db uid args h hne hdash
    cases args with
    | nil => exact absurd rfl hne
    | cons a as =>
      unfold similar_command
      rw [if_neg (by simp)]
      obtain ⟨x, y, hs⟩ := splitFirst_isSome_of_hasChar _ _ hdash
      dsimp only
      rw [hs]
      dsimp only
      rw [increment_none db uid h]
      split
      · rfl
      · rfl

/-- Claim C9 witness: incrementing the existing user returns 5; on an
empty store the increment fails, and a well-formed /similar from the
unknown user id 2 crashes. -/
theorem increment_requires_existing_user_witness :
    (∃ db', DB.increment_interaction dbFour 1 = some (5, db')) ∧
    DB.increment_interaction { users := [], downloads := [] } 2 = none ∧
    similar_command { similarResp := none, adIndex := 0 } { users := [], downloads := [] } 2
        ["Radiohead", "-", "Creep"] = none :=
  ⟨increment_requires_existing_user.1 dbFour 1
     { user_id := 1, username := "u", mode := "basic", interaction_count := 4 } rfl,
   increment_requires_existing_user.2.1 { users := [], downloads := [] } 2 rfl,
   increment_requires_existing_user.2.2 { similarResp := none, adIndex := 0 }
     { users := [], downloads := [] } 2 ["Radiohead", "-", "Creep"] rfl (by decide) (by decide)⟩

/-- Claim C10: acquisition success at the pipeline boundary needs both a
returned path and an existing file.  A returned path at which no file
exists takes exactly the not-found branch — same single message, no audio,
no DownloadRecord, nothing removed — and is indistinguishable from
download_audio returning absent; with a filesystem where no path exists,
message_handler behaves identically to download_audio returning absent. -/
theorem missing_file_is_acquisition_failure :
    (∀ (env : Env) (db : DB) (uid : Int) (dq p : String),
       env.download dq = some p → env.fileExists p = false →
       deliver_phase env db uid dq = ([Out.text not_found_msg], db, []) ∧
       deliver_phase env db uid dq =
         deliver_phase { env with download := fun _ => none } db uid dq) ∧
    (∀ (env : Env) (db0 : DB) (uid : Int) (uname q : String),
       env.fileExists = (fun _ => false) →
       message_handler env db0 uid uname q =
         message_handler { env with download := fun _ => none } db0 uid uname q) := by
  constructor
  · intro env db uid dq p h1 h2
    refine ⟨deliver_phase_no_file env db uid dq p h1 h2, ?_⟩
    rw [deliver_phase_no_file env db uid dq p h1 h2,
        deliver_phase_absent { env with download := fun _ => none } db uid dq rfl]
  · intro env db0 uid uname q h
    have hdel : ∀ (db : DB) (dq : String),
        deliver_phase env db uid dq = ([Out.text not_found_msg], db, []) := by
      intro db dq
      cases hd : env.download dq with
      | none => exact deliver_phase_absent env db uid dq hd
      | some p => exact deliver_phase_no_file env db uid dq p hd (by rw [h])
    have hdel' : ∀ (db : DB) (dq : String),
        deliver_phase { env with download := fun _ => none } db uid dq
          = ([Out.text not_found_msg], db, []) := by
      intro db dq
      exact deliver_phase_absent _ db uid dq rfl
    unfold message_handler
    dsimp only
    set db1 := (if (db0.get_user uid).isNone then db0.create_user uid uname else db0) with hdb1
    cases hinc : db1.increment_interaction uid with
    | none => rfl
    | some cd =>
      obtain ⟨count, db2⟩ := cd
      dsimp only
      cases hsp : search_phase (match db1.get_user uid with
          | some u => u.mode
          | none => "basic") env.searchResp q with
      | none => rfl
      | some sd =>
        obtain ⟨souts, dq⟩ := sd
        dsimp only
        rw [hdel db2 dq, hdel' db2 dq]

/-- Claim C10 witness: the path-without-file environment evaluated
concretely takes the not-found branch and coincides with the absent
acquirer both at the DeliverPhase and for the whole handler. -/
theorem missing_file_is_acquisition_failure_witness :
    (deliver_phase envNoFile { users := [], downloads := [] } 1 "q" =
       ([Out.text not_found_msg], { users := [], downloads := [] }, []) ∧
     deliver_phase envNoFile { users := [], downloads := [] } 1 "q" =
       deliver_phase { envNoFile with download := fun _ => none }
         { users := [], downloads := [] } 1 "q") ∧
    message_handler envNoFile { users := [], downloads := [] } 1 "u" "q" =
      message_handler { envNoFile with download := fun _ => none }
        { users := [], downloads := [] } 1 "u" "q" :=
  ⟨missing_file_is_acquisition_failure.1 envNoFile { users := [], downloads := [] } 1 "q"
     "/tmp/ghost.mp3" rfl rfl,
   missing_file_is_acquisition_failure.2 envNoFile { users := [], downloads := [] } 1 "u" "q" rfl⟩

/-- Claim C2: every free-text message increments the user's
interaction_count by exactly one whatever the downstream outcome, and the
promotional check runs exactly once on the post-increment value (the ad
is appended exactly when `should_show_ad` holds for it); with an acquirer
that returns absent, the user still gets the not-found message, no
DownloadRecord is created and nothing is removed.  A well-formed /similar
likewise increments exactly once and runs the promotional check on the
post-increment value. -/
theorem interaction_incremented_once :
    (∀ (env : Env) (db0 : DB) (uid : Int) (uname q : String) (r : HandlerResult),
       message_handler env db0 uid uname q = some r →
       DB.countOf r.db uid = some (postCount db0 uid) ∧
       (∃ base, r.outs = base ++
          (if should_show_ad (postCount db0 uid) then
             [Out.text (AD_MESSAGES.getD (env.adIndex % 3) "")] else [])) ∧
       (env.download = (fun _ => none) →
          Out.text not_found_msg ∈ r.outs ∧ r.db.downloads = db0.downloads ∧
          r.removed = [])) ∧
    (∀ (sEnv : SimilarEnv) (db0 : DB) (uid : Int) (args : List String) (r : HandlerResult),
       args ≠ [] →
       hasChar (String.intercalate " " args).data '-' = true →
       similar_command sEnv db0 uid args = some r →
       DB.countOf r.db uid = some (postCount db0 uid) ∧
       (∃ base, r.outs = base ++
          (if should_show_ad (postCount db0 uid) then
             [Out.text (AD_MESSAGES.getD (sEnv.adIndex % 3) "")] else []))) := by
  constructor
  · intro env db0 uid uname q r h
    obtain ⟨u1, hu1, hcount, hdl⟩ := setup_spec db0 uid uname
    obtain ⟨db2, hinc, hget2, hdl2⟩ := increment_spec _ uid u1 hu1
    unfold message_handler at h
    dsimp only at h
    rw [hu1] at h
    dsimp only at h
    rw [hinc] at h
    dsimp only at h
    cases hsp : search_phase u1.mode env.searchResp q with
    | none =>
      rw [hsp] at h
      exact Option.noConfusion h
    | some sd =>
      obtain ⟨souts, dq⟩ := sd
      rw [hsp] at h
      dsimp only at h
      cases hdp : deliver_phase env db2 uid dq with
      | mk douts rest =>
        cases rest with
        | mk db3 removed =>
          rw [hdp] at h
          dsimp only at h
          injection h with h'
          subst h'
          have husers : db3.users = db2.users := by
            have hh := deliver_phase_users env db2 uid dq
            rw [hdp] at hh
            exact hh
          refine ⟨?_, ?_, ?_⟩
          · show DB.countOf db3 uid = _
            unfold DB.countOf
            rw [get_user_eq_of_users_eq db3 db2 uid husers, hget2]
            dsimp only [Option.map]
            rw [hcount]
          · refine ⟨[Out.text searching_msg] ++ souts ++ [Out.text downloading_msg] ++ douts, ?_⟩
            rw [← hcount]
          · intro hdn
            have habs : deliver_phase env db2 uid dq = ([Out.text not_found_msg], db2, []) :=
              deliver_phase_absent env db2 uid dq (by rw [hdn])
            rw [hdp] at habs
            injection habs with e1 e2
            injection e2 with e2 e3
            refine ⟨?_, ?_, e3⟩
            · show Out.text not_found_msg ∈
                [Out.text searching_msg] ++ souts ++ [Out.text downloading_msg] ++ douts
                  ++ (if should_show_ad (u1.interaction_count + 1) then
                        [Out.text (AD_MESSAGES.getD (env.adIndex % 3) "")] else [])
              rw [e1]
              simp
            · show db3.downloads = db0.downloads
              rw [e2, hdl2, hdl]
  · intro sEnv db0 uid args r hne hdash h
    cases args with
    | nil => exact absurd rfl hne
    | cons a as =>
      unfold similar_command at h
      rw [if_neg (by simp)] at h
      obtain ⟨x, y, hs⟩ := splitFirst_isSome_of_hasChar _ _ hdash
      dsimp only at h
      rw [hs] at h
      dsimp only at h
      cases hro : similar_results_outs ((String.mk x).trim) ((String.mk y).trim)
          (get_similar_tracks sEnv.similarResp) with
      | none =>
        rw [hro] at h
        exact Option.noConfusion h
      | some ro =>
        rw [hro] at h
        dsimp only at h
        cases hu : db0.get_user uid with
        | none =>
          rw [increment_none db0 uid hu] at h
          exact Option.noConfusion h
        | some u =>
          obtain ⟨db1, hinc, hget1, hdl1⟩ := increment_spec db0 uid u hu
          rw [hinc] at h
          dsimp only at h
          injection h with h'
          subst h'
          constructor
          · show DB.countOf db1 uid = _
            unfold DB.countOf
            rw [hget1]
            dsimp only [Option.map]
            unfold postCount
            rw [hu]
          · refine ⟨[Out.text similar_wait_msg] ++ ro, ?_⟩
            unfold postCount
            rw [hu]

/-- Claim C2 witness: scenario E evaluated concretely (new user, absent
acquirer) and a well-formed /similar evaluated concretely. -/
theorem interaction_incremented_once_witness :
    (DB.countOf rA.db 1 = some (postCount dbA 1) ∧
     (∃ base, rA.outs = base ++
        (if should_show_ad (postCount dbA 1) then
           [Out.text (AD_MESSAGES.getD (envA.adIndex % 3) "")] else [])) ∧
     (envA.download = (fun _ => none) →
        Out.text not_found_msg ∈ rA.outs ∧ rA.db.downloads = dbA.downloads ∧
        rA.removed = [])) ∧
    (DB.countOf rSim.db 1 = some (postCount dbFour 1) ∧
     (∃ base, rSim.outs = base ++
        (if should_show_ad (postCount dbFour 1) then
           [Out.text (AD_MESSAGES.getD (sEnvSim.adIndex % 3) "")] else []))) :=
  ⟨interaction_incremented_once.1 envA dbA 1 "u" "hello world" rA rfl,
   interaction_incremented_once.2 sEnvSim dbFour 1 ["Coldplay", "-", "Fix", "You"] rSim
     (by decide) (by decide) rfl⟩

/-- Claim C3 counterexample: the acquisition succeeds (a path is returned
and the file exists) and the send throws, yet the handler completes with
the delivery-error message and removes nothing — cleanup is skipped when
sending throws, because os.remove sits inside the try block after the
send instead of a finally. -/
theorem cleanup_skipped_on_send_failure :
    envSendFail.download "song" = some "/tmp/song.mp3" ∧
    envSendFail.fileExists "/tmp/song.mp3" = true ∧
    envSendFail.sendAudioOk = false ∧
    message_handler envSendFail dbFour 1 "u" "song" =
      some { outs := [Out.text searching_msg, Out.text downloading_msg,
                      Out.text send_error_msg],
             db := { users := [{ user_id := 1, username := "u", mode := "basic",
                                 interaction_count := 5 }], downloads := [] },
             removed := [] } :=
  ⟨rfl, rfl, rfl, rfl⟩

/-- Claim C3 (amended): the artifact is removed from transient storage
only in the successful-send outcome.  When reply_audio throws, the except
branch reports a delivery error and the cleanup never runs — nothing is
removed; when the send succeeds, the artifact path is removed after the
DownloadRecord is persisted. -/
theorem artifact_removed_only_on_send_success :
    (∀ (env : Env) (db0 : DB) (uid : Int) (uname q : String) (r : HandlerResult),
       message_handler env db0 uid uname q = some r →
       env.sendAudioOk = false →
       r.removed = []) ∧
    (∀ (env : Env) (db : DB) (uid : Int) (dq p : String),
       env.download dq = some p →
       ((p != "") && env.fileExists p) = true →
       env.sendAudioOk = true →
       (deliver_phase env db uid dq).2.2 = [p]) := by
  constructor
  · intro env db0 uid uname q r h hsend
    obtain ⟨u1, hu1, hcount, hdl⟩ := setup_spec db0 uid uname
    obtain ⟨db2, hinc, hget2, hdl2⟩ := increment_spec _ uid u1 hu1
    unfold message_handler at h
    dsimp only at h
    rw [hu1] at h
    dsimp only at h
    rw [hinc] at h
    dsimp only at h
    cases hsp : search_phase u1.mode env.searchResp q with
    | none =>
      rw [hsp] at h
      exact Option.noConfusion h
    | some sd =>
      obtain ⟨souts, dq⟩ := sd
      rw [hsp] at h
      dsimp only at h
      cases hdp : deliver_phase env db2 uid dq with
      | mk douts rest =>
        cases rest with
        | mk db3 removed =>
          rw [hdp] at h
          dsimp only at h
          injection h with h'
          subst h'
          show removed = []
          have hh := deliver_phase_removed_send_fail env db2 uid dq hsend
          rw [hdp] at hh
          exact hh
  · intro env db uid dq p h1 h2 h3
    rw [deliver_phase_success env db uid dq p h1 h2 h3]

/-- Claim C3 (amended) witness: the throwing-send run removes nothing,
and the successful delivery removes exactly the artifact path. -/
theorem artifact_removed_only_on_send_success_witness :
    HandlerResult.removed
      { outs := [Out.text searching_msg, Out.text downloading_msg, Out.text send_error_msg],
        db := { users := [{ user_id := 1, username := "u", mode := "basic",
                            interaction_count := 5 }], downloads := [] },
        removed := [] } = ([] : List String) ∧
    (deliver_phase envDeliver { users := [], downloads := [] } 1
        "Imagine Dragons Believer").2.2 = ["/tmp/a.mp3"] :=
  ⟨artifact_removed_only_on_send_success.1 envSendFail dbFour 1 "u" "song" _ rfl rfl,
   artifact_removed_only_on_send_success.2 envDeliver { users := [], downloads := [] } 1
     "Imagine Dragons Believer" "/tmp/a.mp3" rfl rfl rfl⟩
